import Mathlib

/-!
Verification of the CityWide event aggregator's feed-discovery and
feed-collection core (`location-feed-discoverer.ts` and
`calendar-collector.ts`) against its natural-language specification.

The TypeScript code is shallowly embedded: every external capability the
code consumes (the HTTP client, the HTML/XML/iCal/JSON decoders, the JS
`Date` string parser, the regex engine, locale time formatting and
`Math.random`) is a field of an `Env` record, while all logic written in
the repository itself (slug construction, domain-template substitution,
confidence scoring and clamping, sorting, de-duplication, per-format
record assembly, fallback generation, registry operations) is translated
into executable Lean definitions.  JS numbers that hold confidence
scores or `Math.random` values are modelled as `ℚ`; JS `Date` values as
epoch milliseconds `Option Int` (with `none` standing for an invalid
date, i.e. `NaN`); JS strings as `String` with helpers reproducing
`includes` / `startsWith` / `endsWith` / `replace` / `trim` /
`toLowerCase` / `substring` semantics; `undefined`-able fields as
`Option`, with the JS truthiness conventions (`""` is falsy) made
explicit.
-/

attribute [local semireducible] Rat.add Rat.mul Rat.sub Rat.inv

/-! ## String helpers (JS string-method semantics over `List Char`) -/

/-- Is `pat` a prefix of the character list in the second argument? -/
def charsHasPre : List Char → List Char → Bool
  | [], _ => true
  | _ :: _, [] => false
  | p :: ps, c :: cs => p == c && charsHasPre ps cs

/-- Does the pattern (second argument) occur anywhere inside the first list? -/
def charsContains : List Char → List Char → Bool
  | [], pat => pat.isEmpty
  | c :: cs, pat => charsHasPre pat (c :: cs) || charsContains cs pat

/-- JS `s.includes(pat)`. -/
def strContains (s pat : String) : Bool := charsContains s.data pat.data

/-- JS `s.startsWith(pat)`. -/
def strStartsWith (s pat : String) : Bool := charsHasPre pat.data s.data

/-- JS `s.endsWith(pat)`. -/
def strEndsWith (s pat : String) : Bool := charsHasPre pat.data.reverse s.data.reverse

/-- JS `s.toLowerCase()` (ASCII inputs). -/
def strToLower (s : String) : String := String.mk (s.data.map Char.toLower)

/-- JS `s.toUpperCase()` (ASCII inputs). -/
def strToUpper (s : String) : String := String.mk (s.data.map Char.toUpper)

/-- JS `s.substring(0, n)`. -/
def strTake (s : String) (n : Nat) : String := String.mk (s.data.take n)

/-- JS `s.trim()`. -/
def strTrim (s : String) : String :=
  String.mk (((s.data.dropWhile Char.isWhitespace).reverse.dropWhile Char.isWhitespace).reverse)

/-- JS `s.length`. -/
def strLength (s : String) : Nat := s.data.length

/-- Replace the first occurrence of `pat` in the list by `rep`:
JS `s.replace(pat, rep)` with a plain-string pattern. -/
def charsReplaceFirst : List Char → List Char → List Char → List Char
  | [], _, _ => []
  | c :: cs, pat, rep =>
    if charsHasPre pat (c :: cs) then rep ++ (c :: cs).drop pat.length
    else c :: charsReplaceFirst cs pat rep

/-- JS `s.replace(pat, rep)` with a plain-string pattern (first occurrence only). -/
def replaceFirst (s pat rep : String) : String :=
  String.mk (charsReplaceFirst s.data pat.data rep.data)

/-- Collapse each maximal whitespace run to the single character `rep`:
the JS global regex replace of `\s+`. The Boolean tracks whether we are
inside a whitespace run. -/
def charsCollapseWs (rep : Char) : Bool → List Char → List Char
  | _, [] => []
  | inRun, c :: cs =>
    if c.isWhitespace then
      if inRun then charsCollapseWs rep true cs
      else rep :: charsCollapseWs rep true cs
    else c :: charsCollapseWs rep false cs

/-- Skip to just past the next `>`: tail of a matched `<[^>]*>` span. -/
def charsDropTag : List Char → Option (List Char)
  | [] => none
  | c :: cs => if c == '>' then some cs else charsDropTag cs

/-- The length bound needed for termination of `charsStripTags`. -/
theorem charsDropTag_length : ∀ (cs rest : List Char), charsDropTag cs = some rest →
    rest.length ≤ cs.length := by
  intro cs
  induction cs with
  | nil => intro rest h; simp [charsDropTag] at h
  | cons c cs ih =>
    intro rest h
    simp only [charsDropTag] at h
    split at h
    · cases h; simp
    · exact Nat.le_trans (ih rest h) (by simp)

/-- The JS global regex replace `<[^>]*>` → `""` (strip markup tags). -/
def charsStripTags : List Char → List Char
  | [] => []
  | c :: cs =>
    if c == '<' then
      match h : charsDropTag cs with
      | some rest => charsStripTags rest
      | none => c :: charsStripTags cs
    else c :: charsStripTags cs
termination_by l => l.length
decreasing_by
  · exact Nat.lt_succ_of_le (charsDropTag_length _ _ h)
  · simp
  · simp

/-- Skip to just past the next `;`: tail of a matched `&[^;]+;` span. -/
def charsDropEntity : List Char → Option (List Char)
  | [] => none
  | c :: cs => if c == ';' then some cs else charsDropEntity cs

theorem charsDropEntity_length : ∀ (cs rest : List Char), charsDropEntity cs = some rest →
    rest.length ≤ cs.length := by
  intro cs
  induction cs with
  | nil => intro rest h; simp [charsDropEntity] at h
  | cons c cs ih =>
    intro rest h
    simp only [charsDropEntity] at h
    split at h
    · cases h; simp
    · exact Nat.le_trans (ih rest h) (by simp)

/-- The JS global regex replace `&[^;]+;` → `" "` (HTML entities to spaces).
A match needs at least one non-`;` character between `&` and `;`. -/
def charsStripEntities : List Char → List Char
  | [] => []
  | c :: cs =>
    if c == '&' then
      match cs with
      | [] => [c]
      | d :: ds =>
        if d == ';' then c :: charsStripEntities (d :: ds)
        else
          match h : charsDropEntity (d :: ds) with
          | some rest => ' ' :: charsStripEntities rest
          | none => c :: charsStripEntities (d :: ds)
    else c :: charsStripEntities cs
termination_by l => l.length
decreasing_by
  · simp
  · exact Nat.lt_succ_of_le (charsDropEntity_length _ _ h)
  · simp
  · simp

/-! ## JS value conventions -/

/-- JS truthiness filter on an optional string: `undefined` and `""` are falsy. -/
def truthyOpt : Option String → Option String
  | some s => if s = "" then none else some s
  | none => none

/-- JS `a || b` over two optional strings, `none` when both are falsy. -/
def truthyOr (a b : Option String) : Option String :=
  match truthyOpt a with
  | some s => some s
  | none => truthyOpt b

/-- JS truthiness of an optional string. -/
def truthyStr (o : Option String) : Bool := (truthyOpt o).isSome

/-- JS `a || dflt` where `a` is an optional string and `dflt` a string literal. -/
def jsOrStr (a : Option String) (dflt : String) : String :=
  match truthyOpt a with
  | some s => s
  | none => dflt

/-- JS `a || b` over plain strings (`""` is falsy). -/
def jsOrS (a b : String) : String := if a = "" then b else a

/-- A JS `Date` value in epoch milliseconds; `none` is an invalid date (`NaN`). -/
abbrev JSDate := Option Int

/-- Millisecond arithmetic on a JS date: `NaN` propagates. -/
def jsAddMs : JSDate → Int → JSDate
  | some t, d => some (t + d)
  | none, _ => none

/-- JS `Math.min` on two numbers. -/
def mathMin (a b : ℚ) : ℚ := if a ≤ b then a else b

/-! ## Data model (`calendar-collector.ts` / `location-feed-discoverer.ts` interfaces) -/

/-- `CalendarSource.type`: `'city' | 'school' | 'chamber' | 'library' | 'parks'`. -/
inductive SourceType where
  | city | school | chamber | library | parks
deriving DecidableEq

/-- `CalendarSource.feedType`: `'ical' | 'rss' | 'webcal' | 'json' | 'html'`. -/
inductive FeedType where
  | ical | rss | webcal | json | html
deriving DecidableEq

/-- `LocationInfo.type`: `'city' | 'county' | 'township' | 'village'`. -/
inductive LocType where
  | city | county | township | village
deriving DecidableEq

/-- The organization category attached to a location during discovery:
`'city' | 'school' | 'chamber'`. -/
inductive OrgType where
  | city | school | chamber
deriving DecidableEq

/-- The string form of an `OrgType` (used inside generated source ids). -/
def orgTypeStr : OrgType → String
  | .city => "city"
  | .school => "school"
  | .chamber => "chamber"

/-- The (`as any`) cast of an `OrgType` into `CalendarSource.type`. -/
def OrgType.toSourceType : OrgType → SourceType
  | .city => .city
  | .school => .school
  | .chamber => .chamber

/-- `interface CalendarSource`.  `lastSync` is a JS `Date`, kept as epoch
milliseconds. -/
structure CalendarSource where
  id : String
  name : String
  city : String
  state : String
  type : SourceType
  feedUrl : Option String
  websiteUrl : Option String
  isActive : Bool
  lastSync : Option Int := none
  feedType : FeedType
deriving DecidableEq

/-- `interface LocationInfo`. -/
structure LocationInfo where
  city : String
  state : String
  county : Option String := none
  type : LocType
deriving DecidableEq

/-- `interface DiscoveredFeed`. -/
structure DiscoveredFeed where
  source : CalendarSource
  confidence : ℚ
  lastChecked : Int
deriving DecidableEq

/-- `InsertEvent` (from `@shared/schema`): the normalized event record. -/
structure InsertEvent where
  title : String
  description : String
  category : String
  location : String
  organizer : String
  startDate : JSDate
  endDate : JSDate
  startTime : String
  endTime : String
  attendees : Int
  imageUrl : Option String
  isFree : String
  source : String
deriving DecidableEq

/-! ## Decoded external payloads

The wire decoders (`node-ical`, `xml2js`, JSON, cheerio) are external
collaborators; the embedding works with their already-decoded output. -/

/-- A GET response accepted by `validateStatus` handling: its status and the
`href` attributes of the homepage's anchor elements (what cheerio exposes). -/
structure GetResponse where
  status : Nat
  anchors : List String
deriving DecidableEq

/-- A HEAD response: only the `content-type` header is consulted
(`undefined` collapsing to `''` via `|| ''` is pre-applied). -/
structure HeadResponse where
  contentType : String
deriving DecidableEq

/-- One component of a decoded iCal payload (`node-ical` output).
`ctype` is the component's `type` tag; `ends` is its optional `end`. -/
structure ICalComponent where
  ctype : String
  start : Option Int
  ends : Option Int
  summary : Option String
  description : Option String
  location : Option String
deriving DecidableEq

/-- One decoded RSS/Atom item: the string fields the parser reads
(`item.title?.[0] || item.title?._` etc. collapsed to one option each). -/
structure RSSItem where
  title : Option String
  description : Option String
  summary : Option String
  pubDate : Option String
  published : Option String
deriving DecidableEq

/-- One entry of a decoded JSON feed, with the flexible field aliases the
parser reads.  Date-like fields stay strings (parsed via the JS `Date`
constructor); `price` is a JS number. -/
structure JSONEvent where
  start_date : Option String := none
  date : Option String := none
  end_date : Option String := none
  title : Option String := none
  name : Option String := none
  description : Option String := none
  summary : Option String := none
  location : Option String := none
  attendees : Option Int := none
  image_url : Option String := none
  is_free : Option Bool := none
  price : Option ℚ := none
deriving DecidableEq

/-- A decoded JSON feed body: the three conventional top-level list keys
(`data.events || data.items || data.data`).  A present-but-empty array is
truthy in JS, hence `Option (List _)` rather than a bare list. -/
structure JSONData where
  events : Option (List JSONEvent) := none
  items : Option (List JSONEvent) := none
  data : Option (List JSONEvent) := none
deriving DecidableEq

/-- One cheerio element matched by an event selector, reduced to the four
`.find(...).first().text()` query results the scraper reads (cheerio
returns `""` when nothing matches). -/
structure HtmlElement where
  headingText : String
  linkText : String
  descText : String
  dateText : String
deriving DecidableEq

/-- The environment of external capabilities consumed by the core (spec §6):
HTTP client, URL resolution, wire-format decoders, the JS `Date` string
parser, the regex engine, locale time formatting, `Math.random` (a stream
of draws), and the current time `Date.now()`. -/
structure Env where
  now : Int
  httpGet : String → Option GetResponse
  httpHead : String → Option HeadResponse
  resolvePathname : String → String → String
  urlOrigin : String → String
  rand : Nat → ℚ
  fmtTime : JSDate → String
  fetchICal : String → Option (List ICalComponent)
  fetchRSS : String → Option (List RSSItem)
  fetchJSON : String → Option JSONData
  fetchHTML : String → Option (String → List HtmlElement)
  jsDate : String → Option Int
  regexTest : String → String → Bool

/-! ## Feed discovery engine (`location-feed-discoverer.ts`) -/

/-- `commonFeedPaths`. -/
def commonFeedPaths : List String :=
  ["/calendar", "/events", "/calendar.ics", "/events.ics", "/calendar/feed",
   "/events/feed", "/calendar.rss", "/events.rss", "/api/events",
   "/api/calendar", "/feeds/calendar", "/feeds/events"]

/-- `governmentDomainPatterns`. -/
def governmentDomainPatterns : List String :=
  ["{city}.gov", "{city}.{state}.gov", "www.{city}.gov", "www.{city}.{state}.gov",
   "{city}{state}.gov", "city{city}.gov", "cityof{city}.gov"]

/-- `schoolDistrictPatterns`. -/
def schoolDistrictPatterns : List String :=
  ["{city}schools.org", "{city}schools.edu", "{city}sd.org", "{city}isd.org",
   "www.{city}schools.org", "www.{city}schools.edu"]

/-- `chamberPatterns`. -/
def chamberPatterns : List String :=
  ["{city}chamber.org", "{city}chamber.com", "www.{city}chamber.org",
   "www.{city}chamber.com", "{city}chamberofcommerce.org", "{city}chamberofcommerce.com"]

/-- `createCitySlug`: lowercase, strip whitespace, strip non-`[a-z0-9]`. -/
def createCitySlug (city : String) : String :=
  String.mk (((strToLower city).data.filter (fun c => !c.isWhitespace)).filter
    (fun c => ('a' ≤ c && c ≤ 'z') || c.isDigit))

/-- Substitute the city and state slugs into a domain-pattern template
(`pattern.replace('{city}', citySlug).replace('{state}', stateSlug)`). -/
def applyPattern (pat citySlug stateSlug : String) : String :=
  replaceFirst (replaceFirst pat "{city}" citySlug) "{state}" stateSlug

/-- `generateSourceName`. -/
def generateSourceName (loc : LocationInfo) (orgType : OrgType) : String :=
  match orgType with
  | .city => loc.city ++ " City Government"
  | .school => loc.city ++ " School District"
  | .chamber => loc.city ++ " Chamber of Commerce"

/-- The feed-type/base-confidence classification cascade of `validateFeedUrl`
(first match wins); the trailing pair is the `html`/0.3 default. -/
def classifyFeed (contentType feedUrl : String) : FeedType × ℚ :=
  if strContains contentType "text/calendar" || strEndsWith feedUrl ".ics" then
    (.ical, mkRat 9 10)
  else if strContains contentType "application/rss" || strContains contentType "xml"
      || strContains feedUrl "rss" || strContains feedUrl ".xml" then
    (.rss, mkRat 8 10)
  else if strContains contentType "application/json" || strContains feedUrl "api"
      || strContains feedUrl ".json" then
    (.json, mkRat 7 10)
  else if strContains feedUrl "calendar" || strContains feedUrl "events" then
    (.html, mkRat 5 10)
  else
    (.html, mkRat 3 10)

/-- `validateFeedUrl`: HEAD-probe a candidate URL; on success classify the
feed, add the +0.2 government boost when the URL contains `".gov"`, clamp
with `Math.min(confidence, 1.0)` and assemble the discovered source.  A
transport error (`none` from the HEAD oracle) yields no record. -/
def validateFeedUrl (env : Env) (feedUrl : String) (loc : LocationInfo)
    (orgType : OrgType) : Option DiscoveredFeed :=
  match env.httpHead feedUrl with
  | none => none
  | some resp =>
    let fc := classifyFeed resp.contentType feedUrl
    let confidence := if strContains feedUrl ".gov" then fc.2 + mkRat 2 10 else fc.2
    some {
      source := {
        id := "discovered-" ++ String.mk (charsCollapseWs '-' false (strToLower loc.city).data)
          ++ "-" ++ orgTypeStr orgType ++ "-" ++ toString env.now,
        name := generateSourceName loc orgType,
        city := loc.city,
        state := loc.state,
        type := orgType.toSourceType,
        feedUrl := some feedUrl,
        websiteUrl := some (env.urlOrigin feedUrl),
        isActive := false,
        lastSync := none,
        feedType := fc.1 },
      confidence := mathMin confidence 1,
      lastChecked := env.now }

/-- JS `Set` insertion: append `x` unless already present (insertion order). -/
def insertUniq (l : List String) (x : String) : List String :=
  if x ∈ l then l else l ++ [x]

/-- `checkDomainForFeeds`: GET-probe `https://{domain}`; a transport/DNS
failure (`none`), a server error (≥ 500, rejected by `validateStatus`) or
a 404 yields no feeds; otherwise collect homepage anchor paths containing
"calendar"/"events", union them with `commonFeedPaths`, and validate the
first 10. -/
def checkDomainForFeeds (env : Env) (domain : String) (loc : LocationInfo)
    (orgType : OrgType) : List DiscoveredFeed :=
  let baseUrl := "https://" ++ domain
  match env.httpGet baseUrl with
  | none => []
  | some resp =>
    if 500 ≤ resp.status then []
    else if resp.status = 404 then []
    else
      let hrefs := resp.anchors.filter
        (fun href => strContains href "calendar" || strContains href "events")
      let linkPaths := hrefs.map
        (fun href => if strStartsWith href "/" then href else env.resolvePathname href baseUrl)
      let discoveredPaths := (linkPaths ++ commonFeedPaths).foldl insertUniq []
      (discoveredPaths.take 10).filterMap (fun path =>
        let feedUrl := if strStartsWith path "http" then path else baseUrl ++ path
        validateFeedUrl env feedUrl loc orgType)

/-- `discoverGovernmentFeeds`. -/
def discoverGovernmentFeeds (env : Env) (loc : LocationInfo)
    (citySlug stateSlug : String) : List DiscoveredFeed :=
  governmentDomainPatterns.flatMap (fun pat =>
    checkDomainForFeeds env (applyPattern pat citySlug stateSlug)
      { loc with type := .city } .city)

/-- `discoverSchoolFeeds`. -/
def discoverSchoolFeeds (env : Env) (loc : LocationInfo)
    (citySlug stateSlug : String) : List DiscoveredFeed :=
  schoolDistrictPatterns.flatMap (fun pat =>
    checkDomainForFeeds env (applyPattern pat citySlug stateSlug)
      { loc with type := .city } .school)

/-- `discoverChamberFeeds`. -/
def discoverChamberFeeds (env : Env) (loc : LocationInfo)
    (citySlug stateSlug : String) : List DiscoveredFeed :=
  chamberPatterns.flatMap (fun pat =>
    checkDomainForFeeds env (applyPattern pat citySlug stateSlug)
      { loc with type := .city } .chamber)

/-- The descending-confidence order used by
`discoveredFeeds.sort((a, b) => b.confidence - a.confidence)`. -/
def confDesc (a b : DiscoveredFeed) : Prop := b.confidence ≤ a.confidence

instance : DecidableRel confDesc := fun a b =>
  inferInstanceAs (Decidable (b.confidence ≤ a.confidence))

instance : IsTotal DiscoveredFeed confDesc :=
  ⟨fun a b => le_total b.confidence a.confidence⟩

instance : IsTrans DiscoveredFeed confDesc :=
  ⟨fun _ _ _ hab hbc => le_trans hbc hab⟩

/-- `discoverFeedsForLocation`: government, school and chamber discovery,
concatenated and sorted by descending confidence. -/
def discoverFeedsForLocation (env : Env) (loc : LocationInfo) : List DiscoveredFeed :=
  let citySlug := createCitySlug loc.city
  let stateSlug := strToLower loc.state
  let discoveredFeeds :=
    discoverGovernmentFeeds env loc citySlug stateSlug
      ++ discoverSchoolFeeds env loc citySlug stateSlug
      ++ discoverChamberFeeds env loc citySlug stateSlug
  List.insertionSort confDesc discoveredFeeds

/-- `checkKnownPatterns`: probe five fixed high-confidence URL patterns
directly, boosting each validated feed by +0.3 capped at 1.0. -/
def checkKnownPatterns (env : Env) (loc : LocationInfo) : List DiscoveredFeed :=
  let citySlug := createCitySlug loc.city
  let knownPatterns := [
    "https://www." ++ citySlug ++ ".gov/calendar",
    "https://" ++ citySlug ++ ".gov/events",
    "https://www." ++ citySlug ++ ".gov/calendar.ics",
    "https://calendar." ++ citySlug ++ ".gov",
    "https://events." ++ citySlug ++ ".gov"]
  knownPatterns.filterMap (fun pattern =>
    (validateFeedUrl env pattern { loc with type := .city } .city).map
      (fun feed => { feed with confidence := mathMin (feed.confidence + mkRat 3 10) 1 }))

/-- The fixed state-name → code table of `getStateAbbreviation`. -/
def stateMap : List (String × String) :=
  [("alabama", "AL"), ("alaska", "AK"), ("arizona", "AZ"), ("arkansas", "AR"),
   ("california", "CA"), ("colorado", "CO"), ("connecticut", "CT"), ("delaware", "DE"),
   ("florida", "FL"), ("georgia", "GA"), ("hawaii", "HI"), ("idaho", "ID"),
   ("illinois", "IL"), ("indiana", "IN"), ("iowa", "IA"), ("kansas", "KS"),
   ("kentucky", "KY"), ("louisiana", "LA"), ("maine", "ME"), ("maryland", "MD"),
   ("massachusetts", "MA"), ("michigan", "MI"), ("minnesota", "MN"),
   ("mississippi", "MS"), ("missouri", "MO"), ("montana", "MT"), ("nebraska", "NE"),
   ("nevada", "NV"), ("new hampshire", "NH"), ("new jersey", "NJ"),
   ("new mexico", "NM"), ("new york", "NY"), ("north carolina", "NC"),
   ("north dakota", "ND"), ("ohio", "OH"), ("oklahoma", "OK"), ("oregon", "OR"),
   ("pennsylvania", "PA"), ("rhode island", "RI"), ("south carolina", "SC"),
   ("south dakota", "SD"), ("tennessee", "TN"), ("texas", "TX"), ("utah", "UT"),
   ("vermont", "VT"), ("virginia", "VA"), ("washington", "WA"),
   ("west virginia", "WV"), ("wisconsin", "WI"), ("wyoming", "WY")]

/-- `getStateAbbreviation`: table lookup on the lowercased trimmed name,
falling back to the first two letters uppercased. -/
def getStateAbbreviation (stateName : String) : String :=
  let normalized := strTrim (strToLower stateName)
  match List.lookup normalized stateMap with
  | some code => code
  | none => strTake (strToUpper stateName) 2

/-- Keep-first de-duplication by `source.feedUrl`
(the `filter`/`findIndex` idiom of `discoverFeedsForPopularLocation`);
`seen` carries the feed URLs already kept. -/
def dedupByFeedUrlAux (seen : List (Option String)) :
    List DiscoveredFeed → List DiscoveredFeed
  | [] => []
  | f :: rest =>
    if f.source.feedUrl ∈ seen then dedupByFeedUrlAux seen rest
    else f :: dedupByFeedUrlAux (f.source.feedUrl :: seen) rest

/-- `feeds.filter((feed, index, self) => index === self.findIndex(f =>
f.source.feedUrl === feed.source.feedUrl))`. -/
def dedupByFeedUrl (feeds : List DiscoveredFeed) : List DiscoveredFeed :=
  dedupByFeedUrlAux [] feeds

/-- `discoverFeedsForPopularLocation`: full discovery for the resolved
location, then the known-pattern probes appended, then keep-first
de-duplication by feed URL. -/
def discoverFeedsForPopularLocation (env : Env) (cityName stateName : String) :
    List DiscoveredFeed :=
  let loc : LocationInfo := {
    city := cityName,
    state := getStateAbbreviation stateName,
    county := none,
    type := .city }
  let feeds := discoverFeedsForLocation env loc ++ checkKnownPatterns env loc
  dedupByFeedUrl feeds

/-! ## Text/category normalizer (`calendar-collector.ts`) -/

/-- `categorizeEvent`: ordered keyword cascade over the lowercased
concatenation of title and description; first match wins; the generic
community/social category is the default. -/
def categorizeEvent (title description : String) : String :=
  let text := strToLower (title ++ " " ++ description)
  if strContains text "council" || strContains text "meeting" || strContains text "public" then
    "Community & Social"
  else if strContains text "school" || strContains text "education" || strContains text "class" then
    "Education & Learning"
  else if strContains text "business" || strContains text "networking" || strContains text "chamber" then
    "Business & Networking"
  else if strContains text "art" || strContains text "gallery" || strContains text "exhibition" then
    "Arts & Culture"
  else if strContains text "music" || strContains text "concert" || strContains text "performance" then
    "Music & Concerts"
  else if strContains text "sport" || strContains text "game" || strContains text "tournament" then
    "Sports & Recreation"
  else if strContains text "food" || strContains text "dining" || strContains text "restaurant" then
    "Food & Dining"
  else if strContains text "health" || strContains text "wellness" || strContains text "fitness" then
    "Health & Wellness"
  else if strContains text "family" || strContains text "kids" || strContains text "children" then
    "Family & Kids"
  else if strContains text "holiday" || strContains text "celebration" || strContains text "festival" then
    "Holiday"
  else
    "Community & Social"

/-- `cleanText`: strip markup tags, collapse HTML entities to spaces,
collapse whitespace runs, trim, truncate to 300 characters. -/
def cleanText (text : String) : String :=
  strTake (strTrim (String.mk
    (charsCollapseWs ' ' false (charsStripEntities (charsStripTags text.data))))) 300

/-- The three date regexes tried by `parseEventDate` (evaluated by the
external regex engine). -/
def datePatterns : List String :=
  ["(\\d\x7b1,2\x7d)/(\\d\x7b1,2\x7d)/(\\d\x7b4\x7d)",
   "(\\d\x7b4\x7d)-(\\d\x7b1,2\x7d)-(\\d\x7b1,2\x7d)",
   "(Jan|Feb|Mar|Apr|May|Jun|Jul|Aug|Sep|Oct|Nov|Dec)\\w*\\s+(\\d\x7b1,2\x7d),?\\s+(\\d\x7b4\x7d)"]

/-- `parseEventDate`: `null` (`none`) for empty text; else the JS `Date`
parse when valid; else, when one of the fixed patterns matches, the same
(still invalid, `NaN`) date object — which is truthy in JS — else `null`. -/
def parseEventDate (env : Env) (dateText : String) : Option JSDate :=
  if dateText = "" then none
  else
    match env.jsDate dateText with
    | some t => some (some t)
    | none =>
      if datePatterns.any (fun pattern => env.regexTest pattern dateText) then some none
      else none

/-! ## Format parsers (`calendar-collector.ts`) -/

/-- The per-component body of `parseICalFeed`: keep only `VEVENT`
components with a (JS-truthy) start and summary; default the end to
start + 1 hour; default the description; classify; derive the free flag
from the description. -/
def parseICalComponent (env : Env) (source : CalendarSource)
    (event : ICalComponent) : Option InsertEvent :=
  match event.start, event.summary with
  | some startDate, some summary =>
    if event.ctype = "VEVENT" ∧ summary ≠ "" then
      let endDate : Int := match event.ends with
        | some e => e
        | none => startDate + 60 * 60 * 1000
      some {
        title := summary,
        description := jsOrStr event.description "Event details available on website",
        category := categorizeEvent summary (jsOrStr event.description ""),
        location := jsOrStr event.location (source.city ++ ", " ++ source.state),
        organizer := source.name,
        startDate := some startDate,
        endDate := some endDate,
        startTime := env.fmtTime (some startDate),
        endTime := env.fmtTime (some endDate),
        attendees := 0,
        imageUrl := none,
        isFree := if (match event.description with
          | some d => strContains (strToLower d) "free"
          | none => false) then "true" else "false",
        source := source.id }
    else none
  | _, _ => none

/-- `parseICalFeed`: no feed URL means no events; fetch+decode through the
iCal oracle, a failure raising (`Except.error`); cap at 10 events. -/
def parseICalFeed (env : Env) (source : CalendarSource) :
    Except String (List InsertEvent) :=
  match source.feedUrl with
  | none => .ok []
  | some feedUrl =>
    if feedUrl = "" then .ok []
    else match env.fetchICal feedUrl with
      | none => .error "Failed to parse iCal feed"
      | some events => .ok ((events.filterMap (parseICalComponent env source)).take 10)

/-- The per-item body of `parseRSSFeed`. -/
def parseRSSItem (env : Env) (source : CalendarSource) (item : RSSItem) : InsertEvent :=
  let title := jsOrStr item.title "Untitled Event"
  let description := jsOrStr (truthyOr item.description item.summary)
    "Event details available on website"
  let startDate : JSDate := match truthyOr item.pubDate item.published with
    | some s => env.jsDate s
    | none => some env.now
  let endDate := jsAddMs startDate (2 * 60 * 60 * 1000)
  { title := cleanText title,
    description := cleanText description,
    category := categorizeEvent title description,
    location := source.city ++ ", " ++ source.state,
    organizer := source.name,
    startDate := startDate,
    endDate := endDate,
    startTime := env.fmtTime startDate,
    endTime := env.fmtTime endDate,
    attendees := 0,
    imageUrl := none,
    isFree := if strContains (strToLower description) "free" then "true" else "false",
    source := source.id }

/-- `parseRSSFeed`: fetch+decode through the XML oracle, a failure raising;
accept an RSS item list or Atom entry list (collapsed by the decoder);
cap at 10; fixed 2-hour duration; published timestamp defaults to now. -/
def parseRSSFeed (env : Env) (source : CalendarSource) :
    Except String (List InsertEvent) :=
  match source.feedUrl with
  | none => .ok []
  | some feedUrl =>
    if feedUrl = "" then .ok []
    else match env.fetchRSS feedUrl with
      | none => .error "Failed to parse RSS feed"
      | some items => .ok ((items.take 10).map (parseRSSItem env source))

/-- `data.events || data.items || data.data || []` (arrays are truthy even
when empty). -/
def jsonEventList (d : JSONData) : List JSONEvent :=
  match d.events with
  | some l => l
  | none =>
    match d.items with
    | some l => l
    | none =>
      match d.data with
      | some l => l
      | none => []

/-- The per-entry body of `parseJSONFeed`, with the flexible field aliases. -/
def parseJSONEvent (env : Env) (source : CalendarSource) (event : JSONEvent) : InsertEvent :=
  let startDate : JSDate := match truthyOr event.start_date event.date with
    | some s => env.jsDate s
    | none => some env.now
  let endDate : JSDate := match truthyOr event.end_date event.date with
    | some s => env.jsDate s
    | none => jsAddMs startDate (2 * 60 * 60 * 1000)
  { title := jsOrStr (truthyOr event.title event.name) "Untitled Event",
    description := jsOrStr (truthyOr event.description event.summary)
      "Event details available on website",
    category := categorizeEvent (jsOrStr event.title "") (jsOrStr event.description ""),
    location := jsOrStr event.location (source.city ++ ", " ++ source.state),
    organizer := source.name,
    startDate := startDate,
    endDate := endDate,
    startTime := env.fmtTime startDate,
    endTime := env.fmtTime endDate,
    attendees := match event.attendees with | some n => n | none => 0,
    imageUrl := truthyOpt event.image_url,
    isFree := if ((match event.is_free with | some b => b | none => false)
        || decide (event.price = some 0)
        || (match event.description with
            | some d => strContains (strToLower d) "free"
            | none => false)) then "true" else "false",
    source := source.id }

/-- `parseJSONFeed`: fetch+decode through the JSON oracle, a failure
raising; locate the event list under the conventional keys; cap at 10. -/
def parseJSONFeed (env : Env) (source : CalendarSource) :
    Except String (List InsertEvent) :=
  match source.feedUrl with
  | none => .ok []
  | some feedUrl =>
    if feedUrl = "" then .ok []
    else match env.fetchJSON feedUrl with
      | none => .error "Failed to parse JSON feed"
      | some d => .ok (((jsonEventList d).take 10).map (parseJSONEvent env source))

/-- `parseWebCalFeed`: rewrite `webcal://` to `https://` and delegate to the
iCal parser. -/
def parseWebCalFeed (env : Env) (source : CalendarSource) :
    Except String (List InsertEvent) :=
  parseICalFeed env
    { source with feedUrl := source.feedUrl.map (fun u => replaceFirst u "webcal://" "https://") }

/-- The per-element body of `scrapeHTMLEvents`: title from a heading/title
element, else the first link's text, else `"Community Event"`; skip when
the title length is ≤ 3; description truncated to 300; best-effort date
parse defaulting to now; fixed 2-hour duration. -/
def scrapeElement (env : Env) (source : CalendarSource) (el : HtmlElement) :
    Option InsertEvent :=
  let title := jsOrS (strTrim el.headingText) (jsOrS (strTrim el.linkText) "Community Event")
  if title ≠ "" ∧ 3 < strLength title then
    let description := jsOrS (strTrim el.descText) "Event details available on website"
    let dateText := strTrim el.dateText
    let startDate : JSDate := match parseEventDate env dateText with
      | some d => d
      | none => some env.now
    let endDate := jsAddMs startDate (2 * 60 * 60 * 1000)
    some {
      title := cleanText title,
      description := cleanText (strTake description 300),
      category := categorizeEvent title description,
      location := source.city ++ ", " ++ source.state,
      organizer := source.name,
      startDate := startDate,
      endDate := endDate,
      startTime := env.fmtTime startDate,
      endTime := env.fmtTime endDate,
      attendees := 0,
      imageUrl := none,
      isFree := if strContains (strToLower description) "free" then "true" else "false",
      source := source.id }
  else none

/-- The selector cascade of `scrapeHTMLEvents`: try each selector group in
order, scrape the first 5 matched elements, and stop at the first group
producing at least one parsed event. -/
def scrapeCascade (env : Env) (source : CalendarSource)
    (query : String → List HtmlElement) : List String → List InsertEvent
  | [] => []
  | selector :: rest =>
    let elements := query selector
    if 0 < elements.length then
      let parsed := (elements.take 5).filterMap (scrapeElement env source)
      if 0 < parsed.length then parsed else scrapeCascade env source query rest
    else scrapeCascade env source query rest

/-- The ordered selector groups tried by `scrapeHTMLEvents`. -/
def eventSelectors : List String :=
  [".event-item, .event, .calendar-event",
   "[class*=\"event\"], [id*=\"event\"]",
   ".upcoming-events li, .events-list li"]

/-- `scrapeHTMLEvents`: fetch the organization website through the HTML
oracle (which exposes the document as a selector query), a failure
raising; then run the selector cascade. -/
def scrapeHTMLEvents (env : Env) (source : CalendarSource) :
    Except String (List InsertEvent) :=
  match source.websiteUrl with
  | none => .ok []
  | some websiteUrl =>
    if websiteUrl = "" then .ok []
    else match env.fetchHTML websiteUrl with
      | none => .error "Failed to scrape HTML events"
      | some query => .ok (scrapeCascade env source query eventSelectors)

/-! ## Fallback generator and collection orchestrator -/

/-- One entry of the rotating `eventTemplates` list. -/
structure EventTemplate where
  title : String
  category : String
  duration : Int
deriving DecidableEq

/-- `eventTemplates`. -/
def eventTemplates : List EventTemplate :=
  [⟨"City Council Meeting", "Community & Social", 2⟩,
   ⟨"Public Library Story Time", "Family & Kids", 1⟩,
   ⟨"Business Networking Event", "Business & Networking", 2⟩,
   ⟨"Community Health Fair", "Health & Wellness", 4⟩,
   ⟨"Local Art Exhibition Opening", "Arts & Culture", 3⟩]

/-- The `i`-th event produced by `generateFallbackEvents`.  The three
`Math.random()` draws of iteration `i` are `rand (3*i)` (start offset),
`rand (3*i+1)` (attendees) and `rand (3*i+2)` (free flag); fractional
milliseconds are truncated by the `Date` constructor (`Rat.floor`, the
draws being nonnegative). -/
def fallbackEvent (env : Env) (source : CalendarSource) (i : Nat) : InsertEvent :=
  let template := eventTemplates.getD (i % eventTemplates.length) ⟨"", "", 0⟩
  let startDate : Int := env.now + ((i : Int) + 1) * (24 * 60 * 60 * 1000)
    + Rat.floor (env.rand (3 * i) * (12 * 60 * 60 * 1000 : ℚ))
  let endDate : Int := startDate + template.duration * (60 * 60 * 1000)
  { title := template.title ++ " - " ++ source.city,
    description := "Join us for this community event in " ++ source.city ++ ", "
      ++ source.state ++ ". Event details and registration available on our website.",
    category := template.category,
    location := source.city ++ ", " ++ source.state,
    organizer := source.name,
    startDate := some startDate,
    endDate := some endDate,
    startTime := env.fmtTime (some startDate),
    endTime := env.fmtTime (some endDate),
    attendees := Rat.floor (env.rand (3 * i + 1) * 100) + 20,
    imageUrl := none,
    isFree := if mkRat 3 10 < env.rand (3 * i + 2) then "true" else "false",
    source := source.id }

/-- `generateFallbackEvents`: the `for (let i = 0; i < 3; i++)` loop. -/
def generateFallbackEvents (env : Env) (source : CalendarSource) : List InsertEvent :=
  (List.range 3).map (fallbackEvent env source)

/-- The `switch (source.feedType)` dispatch of `collectFromSource` (the
`default` arm, auto-detecting as iCal, is unreachable: `feedType` is a
closed five-value union). -/
def collectFromSourceDispatch (env : Env) (source : CalendarSource) :
    Except String (List InsertEvent) :=
  match source.feedType with
  | .ical => parseICalFeed env source
  | .rss => parseRSSFeed env source
  | .json => parseJSONFeed env source
  | .webcal => parseWebCalFeed env source
  | .html => scrapeHTMLEvents env source

/-- `collectFromSource`: the real fetch/parse path, falling back to the
synthetic generator when it fails. -/
def collectFromSource (env : Env) (source : CalendarSource) : List InsertEvent :=
  match collectFromSourceDispatch env source with
  | .ok events => events
  | .error _ => generateFallbackEvents env source

/-- `collectFromAllSources` as a registry transformer.  The batching
(slices of 5 under `Promise.allSettled`, with a 2 s pacing delay between
batches) only schedules I/O: `collectFromSource` traps every fetch/parse
failure, so every task fulfills, each active source contributes its
events in source order and gets `lastSync = new Date()`; inactive sources
are untouched. -/
def collectFromAllSources (env : Env) (sources : List CalendarSource) :
    List InsertEvent × List CalendarSource :=
  let activeSources := sources.filter (fun s => s.isActive)
  let allEvents := activeSources.flatMap (fun s => collectFromSource env s)
  let updated := sources.map (fun s =>
    if s.isActive then { s with lastSync := some env.now } else s)
  (allEvents, updated)

/-! ## Source registry (`calendar-collector.ts`) -/

/-- `getSourcesByState`. -/
def getSourcesByState (sources : List CalendarSource) (state : String) :
    List CalendarSource :=
  sources.filter (fun s => decide (s.state = state))

/-- The string form of `CalendarSource.type` (a string union in the source). -/
def sourceTypeStr : SourceType → String
  | .city => "city"
  | .school => "school"
  | .chamber => "chamber"
  | .library => "library"
  | .parks => "parks"

/-- `getSourcesByType`. -/
def getSourcesByType (sources : List CalendarSource) (t : String) :
    List CalendarSource :=
  sources.filter (fun s => decide (sourceTypeStr s.type = t))

/-- `toggleSource`: flip the active flag of the first source with the given
id, returning its new state; `false` when no source matches. -/
def toggleSource : List CalendarSource → String → Bool × List CalendarSource
  | [], _ => (false, [])
  | s :: rest, sourceId =>
    if s.id = sourceId then (!s.isActive, { s with isActive := !s.isActive } :: rest)
    else
      let r := toggleSource rest sourceId
      (r.1, s :: r.2)

/-- `addSource`: reject (returning `false`, registry unchanged) when some
existing source has the same feed URL (`===` on the optional field, so
two absent URLs compare equal) or the same id; otherwise append. -/
def addSource (sources : List CalendarSource) (source : CalendarSource) :
    Bool × List CalendarSource :=
  match sources.find? (fun s =>
      decide (s.feedUrl = source.feedUrl ∨ s.id = source.id)) with
  | some _ => (false, sources)
  | none => (true, sources ++ [source])

/-- `removeSource`: `findIndex` + `splice(index, 1)` — remove the first
source with the given id, reporting whether one was found. -/
def removeSource : List CalendarSource → String → Bool × List CalendarSource
  | [], _ => (false, [])
  | s :: rest, sourceId =>
    if s.id = sourceId then (true, rest)
    else
      let r := removeSource rest sourceId
      (r.1, s :: r.2)

/-- The curated seed registry of `CalendarFeedCollector` (`private sources`),
all active, all with feed URLs, no `lastSync` yet. -/
def initialSources : List CalendarSource :=
  [{ id := "san-francisco-city", name := "San Francisco City Events",
     city := "San Francisco", state := "CA", type := .city,
     feedUrl := some "https://sfgov.org/calendar/feed",
     websiteUrl := some "https://sfgov.org/calendar", isActive := true, feedType := .ical },
   { id := "los-angeles-city", name := "Los Angeles City Events",
     city := "Los Angeles", state := "CA", type := .city,
     feedUrl := some "https://www.lacity.org/events/feed",
     websiteUrl := some "https://www.lacity.org/events", isActive := true, feedType := .rss },
   { id := "san-diego-chamber", name := "San Diego Chamber of Commerce",
     city := "San Diego", state := "CA", type := .chamber,
     feedUrl := some "https://www.sdchamber.org/events.ics",
     websiteUrl := some "https://www.sdchamber.org/events", isActive := true, feedType := .ical },
   { id := "austin-city", name := "Austin City Events",
     city := "Austin", state := "TX", type := .city,
     feedUrl := some "https://www.austintexas.gov/calendar/feed",
     websiteUrl := some "https://www.austintexas.gov/calendar", isActive := true, feedType := .ical },
   { id := "houston-chamber", name := "Greater Houston Partnership",
     city := "Houston", state := "TX", type := .chamber,
     feedUrl := some "https://www.houston.org/events.rss",
     websiteUrl := some "https://www.houston.org/events", isActive := true, feedType := .rss },
   { id := "dallas-schools", name := "Dallas Independent School District",
     city := "Dallas", state := "TX", type := .school,
     feedUrl := some "https://www.dallasisd.org/calendar.ics",
     websiteUrl := some "https://www.dallasisd.org/calendar", isActive := true, feedType := .ical },
   { id := "nyc-events", name := "NYC.gov Events",
     city := "New York", state := "NY", type := .city,
     feedUrl := some "https://www1.nyc.gov/calendar/api/v1/events.json",
     websiteUrl := some "https://www1.nyc.gov/calendar", isActive := true, feedType := .json },
   { id := "brooklyn-chamber", name := "Brooklyn Chamber of Commerce",
     city := "Brooklyn", state := "NY", type := .chamber,
     feedUrl := some "https://www.brooklynchamber.com/events/feed",
     websiteUrl := some "https://www.brooklynchamber.com/events", isActive := true, feedType := .rss },
   { id := "miami-city", name := "City of Miami Events",
     city := "Miami", state := "FL", type := .city,
     feedUrl := some "https://www.miamigov.com/calendar/feed.ics",
     websiteUrl := some "https://www.miamigov.com/calendar", isActive := true, feedType := .ical },
   { id := "orlando-chamber", name := "Orlando Regional Chamber",
     city := "Orlando", state := "FL", type := .chamber,
     feedUrl := some "https://www.orlando.org/events.rss",
     websiteUrl := some "https://www.orlando.org/events", isActive := true, feedType := .rss },
   { id := "chicago-city", name := "Chicago City Events",
     city := "Chicago", state := "IL", type := .city,
     feedUrl := some "https://www.chicago.gov/calendar.ics",
     websiteUrl := some "https://www.chicago.gov/calendar", isActive := true, feedType := .ical },
   { id := "chicago-schools", name := "Chicago Public Schools",
     city := "Chicago", state := "IL", type := .school,
     feedUrl := some "https://www.cps.edu/calendar/feed",
     websiteUrl := some "https://www.cps.edu/calendar", isActive := true, feedType := .rss },
   { id := "seattle-city", name := "Seattle City Events",
     city := "Seattle", state := "WA", type := .city,
     feedUrl := some "https://www.seattle.gov/calendar.ics",
     websiteUrl := some "https://www.seattle.gov/calendar", isActive := true, feedType := .ical },
   { id := "seattle-chamber", name := "Seattle Metropolitan Chamber",
     city := "Seattle", state := "WA", type := .chamber,
     feedUrl := some "https://www.seattlechamber.com/events/feed",
     websiteUrl := some "https://www.seattlechamber.com/events", isActive := true, feedType := .rss },
   { id := "denver-city", name := "Denver City Events",
     city := "Denver", state := "CO", type := .city,
     feedUrl := some "https://www.denvergov.org/calendar.ics",
     websiteUrl := some "https://www.denvergov.org/calendar", isActive := true, feedType := .ical },
   { id := "atlanta-chamber", name := "Metro Atlanta Chamber",
     city := "Atlanta", state := "GA", type := .chamber,
     feedUrl := some "https://www.metroatlantachamber.com/events.rss",
     websiteUrl := some "https://www.metroatlantachamber.com/events", isActive := true, feedType := .rss },
   { id := "phoenix-city", name := "Phoenix City Events",
     city := "Phoenix", state := "AZ", type := .city,
     feedUrl := some "https://www.phoenix.gov/calendar/feed.ics",
     websiteUrl := some "https://www.phoenix.gov/calendar", isActive := true, feedType := .ical },
   { id := "philadelphia-schools", name := "School District of Philadelphia",
     city := "Philadelphia", state := "PA", type := .school,
     feedUrl := some "https://www.philasd.org/calendar.ics",
     websiteUrl := some "https://www.philasd.org/calendar", isActive := true, feedType := .ical }]

/-! ## Concrete test environments (network oracles used by witnesses and
counterexamples) -/

/-- A network where exactly one chamber domain resolves (empty homepage),
exactly one of its common paths answers a HEAD probe (as HTML), and one
known-pattern government URL answers a HEAD probe as an iCal feed. -/
def testEnv : Env := {
  now := 1000,
  httpGet := fun url =>
    if url = "https://springfieldchamber.org" then some { status := 200, anchors := [] }
    else none,
  httpHead := fun url =>
    if url = "https://springfieldchamber.org/calendar" then some { contentType := "" }
    else if url = "https://www.springfield.gov/calendar" then
      some { contentType := "text/calendar" }
    else none,
  resolvePathname := fun _ _ => "/",
  urlOrigin := fun url => url,
  rand := fun _ => 0,
  fmtTime := fun _ => "",
  fetchICal := fun _ => none,
  fetchRSS := fun _ => none,
  fetchJSON := fun _ => none,
  fetchHTML := fun _ => none,
  jsDate := fun _ => none,
  regexTest := fun _ _ => false }

/-- A network where every request fails at the transport level. -/
def envDown : Env := { testEnv with httpGet := fun _ => none, httpHead := fun _ => none }

/-- A network where every GET answers 404 at the root. -/
def env404 : Env :=
  { testEnv with httpGet := fun _ => some { status := 404, anchors := [] } }

/-- A network where every HEAD probe answers with an empty content type. -/
def envHeadOnly : Env := { testEnv with httpHead := fun _ => some { contentType := "" } }

/-- A sample location input. -/
def sampleLoc : LocationInfo := { city := "Springfield", state := "IL", type := .city }

/-- Default `DiscoveredFeed` used by `headD` when picking sample outputs. -/
def defaultFeed : DiscoveredFeed :=
  { source :=
      { id := "", name := "", city := "", state := "", type := .city,
        feedUrl := none, websiteUrl := none, isActive := false, feedType := .html },
    confidence := 0, lastChecked := 0 }

/-! ## Spec-side reading of the government-domain condition (claim C3) -/

/-- The characters following the first `"://"` of a URL. -/
def charsAfterScheme : List Char → List Char
  | [] => []
  | c :: cs => if charsHasPre "://".data (c :: cs) then cs.drop 2 else charsAfterScheme cs

/-- The host component of a URL (`new URL(u).host`): the characters after
`"://"` up to the next `/`.  Spec-side definition, for stating the
"host name ends in a government top-level suffix" reading. -/
def urlHost (url : String) : String :=
  String.mk ((charsAfterScheme url.data).takeWhile (fun c => !(c == '/')))

/-- Spec reading of the boost condition: the host ends in `".gov"`. -/
def hostEndsInGovSuffix (url : String) : Bool := strEndsWith (urlHost url) ".gov"

/-! ## Claim theorems -/

/-- C1: a transport/DNS failure probing a candidate domain's root, or an
HTTP 404 there, yields zero discovered feeds for that domain (for every
location and organization category), and a per-URL validation failure
yields no record for that URL — discovery only returns fewer results.
(The embedded discovery functions are total: no failure propagates to the
caller of `discoverFeedsForLocation`/`discoverFeedsForPopularLocation`.) -/
theorem probe_failure_skips_domain :
    (∀ env domain loc orgType, env.httpGet ("https://" ++ domain) = none →
      checkDomainForFeeds env domain loc orgType = []) ∧
    (∀ env domain loc orgType resp, env.httpGet ("https://" ++ domain) = some resp →
      resp.status = 404 → checkDomainForFeeds env domain loc orgType = []) ∧
    (∀ env feedUrl loc orgType, env.httpHead feedUrl = none →
      validateFeedUrl env feedUrl loc orgType = none) ∧
    (∀ env loc, (∀ url, env.httpGet url = none) →
      discoverFeedsForLocation env loc = []) := by
  have hdom : ∀ (env : Env) domain loc orgType, env.httpGet ("https://" ++ domain) = none →
      checkDomainForFeeds env domain loc orgType = [] := by
    intro env domain loc orgType h
    simp [checkDomainForFeeds, h]
  refine ⟨hdom, ?_, ?_, ?_⟩
  · intro env domain loc orgType resp hget hstatus
    simp only [checkDomainForFeeds, hget]
    rw [hstatus]
    norm_num
  · intro env feedUrl loc orgType h
    simp [validateFeedUrl, h]
  · intro env loc hall
    have hck : ∀ domain loc2 orgType, checkDomainForFeeds env domain loc2 orgType = [] :=
      fun domain loc2 orgType => hdom env domain loc2 orgType (hall _)
    simp [discoverFeedsForLocation, discoverGovernmentFeeds, discoverSchoolFeeds,
      discoverChamberFeeds, hck]

/-- C1 witness: concrete failing probes produce empty results. -/
theorem probe_failure_skips_domain_witness :
    checkDomainForFeeds envDown "example.gov" sampleLoc OrgType.city = [] ∧
    checkDomainForFeeds env404 "example.gov" sampleLoc OrgType.school = [] ∧
    validateFeedUrl envDown "https://example.gov/calendar" sampleLoc OrgType.chamber = none ∧
    discoverFeedsForLocation envDown sampleLoc = [] :=
  ⟨probe_failure_skips_domain.1 envDown "example.gov" sampleLoc .city rfl,
   probe_failure_skips_domain.2.1 env404 "example.gov" sampleLoc .school
     { status := 404, anchors := [] } rfl rfl,
   probe_failure_skips_domain.2.2.1 envDown "https://example.gov/calendar" sampleLoc .chamber rfl,
   probe_failure_skips_domain.2.2.2 envDown sampleLoc (fun _ => rfl)⟩

/-- C3 counterexample: for the URL `https://example.com/page.gov` — whose
host `example.com` does not end in a government suffix — the +0.2 boost
IS added (confidence 0.5 instead of the 0.3 the same response gives the
boost-free URL `https://example.com/page`): `validateFeedUrl` tests
`feedUrl.includes('.gov')` on the whole URL, not the host. -/
theorem gov_boost_not_host_based :
    hostEndsInGovSuffix "https://example.com/page.gov" = false ∧
    (validateFeedUrl envHeadOnly "https://example.com/page.gov" sampleLoc OrgType.city).map
      DiscoveredFeed.confidence = some (mkRat 5 10) ∧
    (validateFeedUrl envHeadOnly "https://example.com/page" sampleLoc OrgType.city).map
      DiscoveredFeed.confidence = some (mkRat 3 10) := by
  refine ⟨by decide, by decide, by decide⟩

/-- C3 (amended): during URL validation the +0.2 confidence boost is added
exactly when the URL contains `".gov"` as a substring anywhere — hence
also for URLs whose host does not end in a government suffix — and the
result is clamped at 1.0. -/
theorem gov_boost_iff_url_contains_gov (env : Env) (url : String) (loc : LocationInfo)
    (orgType : OrgType) (resp : HeadResponse) (h : env.httpHead url = some resp) :
    (validateFeedUrl env url loc orgType).map DiscoveredFeed.confidence =
      some (mathMin ((classifyFeed resp.contentType url).2 +
        (if strContains url ".gov" then mkRat 2 10 else 0)) 1) := by
  unfold validateFeedUrl
  rw [h]
  simp only [Option.map_some']
  congr 2
  split_ifs <;> simp

/-- C3 witness: the amended boost rule evaluated on a concrete probe. -/
theorem gov_boost_iff_url_contains_gov_witness :
    (validateFeedUrl envHeadOnly "https://example.com/page.gov" sampleLoc OrgType.city).map
      DiscoveredFeed.confidence =
      some (mathMin ((classifyFeed "" "https://example.com/page.gov").2 +
        (if strContains "https://example.com/page.gov" ".gov" then mkRat 2 10 else 0)) 1) :=
  gov_boost_iff_url_contains_gov envHeadOnly "https://example.com/page.gov" sampleLoc
    OrgType.city { contentType := "" } rfl

/-- C4 counterexample: the claim fails for
`discoverFeedsForPopularLocation` — on `testEnv` its output has
confidences `[0.5, 1.0]`, not descending, because the boosted
known-pattern feeds are appended after the sorted discovery results
without re-sorting. -/
theorem discoverFeedsForPopularLocation_not_sorted :
    ¬ List.Sorted confDesc (discoverFeedsForPopularLocation testEnv "Springfield" "Illinois") := by
  intro hs
  have hp : List.Pairwise (fun a b : ℚ => b ≤ a)
      ((discoverFeedsForPopularLocation testEnv "Springfield" "Illinois").map
        DiscoveredFeed.confidence) := List.pairwise_map.mpr hs
  rw [show (discoverFeedsForPopularLocation testEnv "Springfield" "Illinois").map
      DiscoveredFeed.confidence = [mkRat 5 10, 1] by decide] at hp
  have h1 : (1 : ℚ) ≤ mkRat 5 10 :=
    List.rel_of_pairwise_cons hp (List.mem_singleton.mpr rfl)
  exact absurd h1 (by decide)

/-- C4 (amended): every sequence returned by `discoverFeedsForLocation` is
sorted in descending order of confidence (for all adjacent — indeed all —
positions `i < j`, `result[i].confidence ≥ result[j].confidence`);
`discoverFeedsForPopularLocation` appends the known-pattern feeds after
this sorted list without re-sorting, so its output need not be sorted. -/
theorem discoverFeedsForLocation_sorted (env : Env) (loc : LocationInfo) :
    List.Sorted confDesc (discoverFeedsForLocation env loc) := by
  unfold discoverFeedsForLocation
  exact List.sorted_insertionSort confDesc _

/-! ## Confidence bounds (claim C2) -/

theorem mathMin_le_right (a b : ℚ) : mathMin a b ≤ b := by
  unfold mathMin
  split_ifs with h
  · exact h
  · exact le_refl b

theorem le_mathMin {c a b : ℚ} (h1 : c ≤ a) (h2 : c ≤ b) : c ≤ mathMin a b := by
  unfold mathMin
  split_ifs <;> assumption

theorem classifyFeed_nonneg (contentType feedUrl : String) :
    0 ≤ (classifyFeed contentType feedUrl).2 := by
  unfold classifyFeed
  split_ifs <;> decide

theorem validateFeedUrl_confidence_bounds (env : Env) (feedUrl : String)
    (loc : LocationInfo) (orgType : OrgType) (f : DiscoveredFeed)
    (h : validateFeedUrl env feedUrl loc orgType = some f) :
    0 ≤ f.confidence ∧ f.confidence ≤ 1 := by
  unfold validateFeedUrl at h
  cases hh : env.httpHead feedUrl with
  | none => rw [hh] at h; cases h
  | some resp =>
    rw [hh] at h
    simp only [Option.some.injEq] at h
    subst h
    refine ⟨?_, mathMin_le_right _ _⟩
    apply le_mathMin
    · have hc := classifyFeed_nonneg resp.contentType feedUrl
      split_ifs
      · have : (0:ℚ) ≤ mkRat 2 10 := by decide
        linarith
      · exact hc
    · norm_num

theorem checkDomainForFeeds_confidence_bounds (env : Env) (domain : String)
    (loc : LocationInfo) (orgType : OrgType) (f : DiscoveredFeed)
    (h : f ∈ checkDomainForFeeds env domain loc orgType) :
    0 ≤ f.confidence ∧ f.confidence ≤ 1 := by
  unfold checkDomainForFeeds at h
  dsimp only at h
  cases hg : env.httpGet ("https://" ++ domain) with
  | none => rw [hg] at h; cases h
  | some resp =>
    rw [hg] at h
    dsimp only at h
    split_ifs at h
    · cases h
    · cases h
    · simp only [List.mem_filterMap] at h
      obtain ⟨path, _, hv⟩ := h
      exact validateFeedUrl_confidence_bounds _ _ _ _ _ hv

theorem discoverFeedsForLocation_confidence_bounds (env : Env) (loc : LocationInfo)
    (f : DiscoveredFeed) (h : f ∈ discoverFeedsForLocation env loc) :
    0 ≤ f.confidence ∧ f.confidence ≤ 1 := by
  unfold discoverFeedsForLocation at h
  have h2 := (List.perm_insertionSort confDesc _).mem_iff.mp h
  simp only [List.mem_append, discoverGovernmentFeeds, discoverSchoolFeeds,
    discoverChamberFeeds, List.mem_flatMap] at h2
  rcases h2 with (⟨pat, _, hd⟩ | ⟨pat, _, hd⟩) | ⟨pat, _, hd⟩ <;>
    exact checkDomainForFeeds_confidence_bounds _ _ _ _ _ hd

theorem checkKnownPatterns_confidence_bounds (env : Env) (loc : LocationInfo)
    (f : DiscoveredFeed) (h : f ∈ checkKnownPatterns env loc) :
    0 ≤ f.confidence ∧ f.confidence ≤ 1 := by
  unfold checkKnownPatterns at h
  simp only [List.mem_filterMap] at h
  obtain ⟨pattern, _, hmap⟩ := h
  cases hv : validateFeedUrl env pattern { loc with type := .city } .city with
  | none => rw [hv] at hmap; cases hmap
  | some feed =>
    rw [hv] at hmap
    simp only [Option.map_some', Option.some.injEq] at hmap
    subst hmap
    have hb := validateFeedUrl_confidence_bounds _ _ _ _ _ hv
    refine ⟨?_, mathMin_le_right _ _⟩
    apply le_mathMin
    · have : (0:ℚ) ≤ mkRat 3 10 := by decide
      linarith [hb.1]
    · norm_num

theorem dedupByFeedUrlAux_subset (seen : List (Option String))
    (l : List DiscoveredFeed) (f : DiscoveredFeed)
    (h : f ∈ dedupByFeedUrlAux seen l) : f ∈ l := by
  induction l generalizing seen with
  | nil => simpa [dedupByFeedUrlAux] using h
  | cons a rest ih =>
    simp only [dedupByFeedUrlAux] at h
    split_ifs at h
    · exact List.mem_cons_of_mem _ (ih _ h)
    · rcases List.mem_cons.mp h with he | hm
      · exact he ▸ List.mem_cons_self _ _
      · exact List.mem_cons_of_mem _ (ih _ hm)

/-- C2: every `DiscoveredFeed` returned by either discovery entry point has
a confidence in the closed interval [0,1]; neither the +0.2
government-domain boost of `validateFeedUrl` nor the +0.3 known-pattern
boost of `checkKnownPatterns` can push the final score above 1.0
(`Math.min(·, 1.0)` clamps both). -/
theorem discovery_confidence_in_unit_interval :
    (∀ env loc f, f ∈ discoverFeedsForLocation env loc →
      0 ≤ f.confidence ∧ f.confidence ≤ 1) ∧
    (∀ env cityName stateName f, f ∈ discoverFeedsForPopularLocation env cityName stateName →
      0 ≤ f.confidence ∧ f.confidence ≤ 1) := by
  refine ⟨discoverFeedsForLocation_confidence_bounds, ?_⟩
  intro env cityName stateName f h
  unfold discoverFeedsForPopularLocation at h
  have h2 := dedupByFeedUrlAux_subset _ _ _ h
  rcases List.mem_append.mp h2 with hl | hk
  · exact discoverFeedsForLocation_confidence_bounds _ _ _ hl
  · exact checkKnownPatterns_confidence_bounds _ _ _ hk

/-- A sample feed produced by full discovery on the test network. -/
def sampleLocationFeed : DiscoveredFeed :=
  (discoverFeedsForLocation testEnv sampleLoc).headD defaultFeed

/-- A sample feed produced by popular-location discovery on the test network. -/
def samplePopularFeed : DiscoveredFeed :=
  (discoverFeedsForPopularLocation testEnv "Springfield" "Illinois").headD defaultFeed

/-- C2 witness: the bound evaluated on concrete members of both entry
points' outputs. -/
theorem discovery_confidence_in_unit_interval_witness :
    (0 ≤ sampleLocationFeed.confidence ∧ sampleLocationFeed.confidence ≤ 1) ∧
    (0 ≤ samplePopularFeed.confidence ∧ samplePopularFeed.confidence ≤ 1) :=
  ⟨discovery_confidence_in_unit_interval.1 testEnv sampleLoc sampleLocationFeed (by decide),
   discovery_confidence_in_unit_interval.2 testEnv "Springfield" "Illinois"
     samplePopularFeed (by decide)⟩

/-! ## Fallback generator (claim C5) -/

/-- A sample curated source used by concrete witnesses. -/
def sampleSource : CalendarSource :=
  { id := "sample-city", name := "Sample City Events", city := "Sample", state := "ST",
    type := .city, feedUrl := some "https://sample.example/cal.ics", websiteUrl := none,
    isActive := true, feedType := .ical }

/-- C5: the Fallback Generator always returns exactly 3 events, each tagged
with the given source's id and starting strictly after now (given that the
`Math.random` draws are nonnegative, as real ones are); it is total
(never raises); and `collectFromSource` invokes it exactly when the real
fetch/parse path fails: an `Except.error` from the dispatch yields the
fallback events, an `Except.ok` yields the parsed events unchanged. -/
theorem fallback_generator_spec :
    (∀ env source, (∀ i, 0 ≤ env.rand i) →
      (generateFallbackEvents env source).length = 3 ∧
      ∀ e ∈ generateFallbackEvents env source,
        e.source = source.id ∧ ∃ t, e.startDate = some t ∧ env.now < t) ∧
    (∀ env source msg, collectFromSourceDispatch env source = .error msg →
      collectFromSource env source = generateFallbackEvents env source) ∧
    (∀ env source events, collectFromSourceDispatch env source = .ok events →
      collectFromSource env source = events) := by
  refine ⟨?_, ?_, ?_⟩
  · intro env source hrand
    have key : ∀ i : Nat, (fallbackEvent env source i).source = source.id ∧
        ∃ t, (fallbackEvent env source i).startDate = some t ∧ env.now < t := by
      intro i
      refine ⟨rfl, env.now + ((i : Int) + 1) * (24 * 60 * 60 * 1000)
        + Rat.floor (env.rand (3 * i) * (12 * 60 * 60 * 1000 : ℚ)), rfl, ?_⟩
      have hfloor : (0:ℤ) ≤ Rat.floor (env.rand (3 * i) * (12 * 60 * 60 * 1000 : ℚ)) :=
        Rat.le_floor.mpr (by
          push_cast
          exact mul_nonneg (hrand _) (by norm_num))
      have hone : (1:ℤ) ≤ (i : Int) + 1 := by omega
      have hday : (24 * 60 * 60 * 1000 : ℤ) ≤ ((i : Int) + 1) * (24 * 60 * 60 * 1000) := by
        nlinarith
      linarith
    refine ⟨rfl, ?_⟩
    intro e he
    simp only [generateFallbackEvents, List.mem_map] at he
    obtain ⟨i, _, rfl⟩ := he
    exact key i
  · intro env source msg herr
    unfold collectFromSource
    rw [herr]
  · intro env source events hok
    unfold collectFromSource
    rw [hok]

/-- C5 witness: the fallback generator and both `collectFromSource` paths
evaluated concretely (on `envDown` every fetch fails, so the iCal source
falls back; a source with no feed URL parses to `ok []`). -/
theorem fallback_generator_spec_witness :
    ((generateFallbackEvents envDown sampleSource).length = 3 ∧
      ∀ e ∈ generateFallbackEvents envDown sampleSource,
        e.source = sampleSource.id ∧ ∃ t, e.startDate = some t ∧ envDown.now < t) ∧
    collectFromSource envDown sampleSource = generateFallbackEvents envDown sampleSource ∧
    collectFromSource envDown { sampleSource with feedUrl := none } = [] :=
  ⟨fallback_generator_spec.1 envDown sampleSource (fun _ => le_refl _),
   fallback_generator_spec.2.1 envDown sampleSource "Failed to parse iCal feed" rfl,
   fallback_generator_spec.2.2 envDown { sampleSource with feedUrl := none } [] rfl⟩

/-! ## Registry `addSource` (claims C6 and C10) -/

/-- `addSource` rejects and leaves the registry untouched when a duplicate
feed URL or id exists. -/
theorem addSource_of_dup (sources : List CalendarSource) (source : CalendarSource)
    (hex : ∃ s ∈ sources, s.feedUrl = source.feedUrl ∨ s.id = source.id) :
    addSource sources source = (false, sources) := by
  unfold addSource
  cases hf : sources.find? (fun s => decide (s.feedUrl = source.feedUrl ∨ s.id = source.id)) with
  | some s => rfl
  | none =>
    obtain ⟨s, hs, hor⟩ := hex
    have := List.find?_eq_none.mp hf s hs
    simp only [decide_eq_true_eq] at this
    exact absurd hor this

/-- `addSource` appends and succeeds when no duplicate feed URL or id exists. -/
theorem addSource_of_fresh (sources : List CalendarSource) (source : CalendarSource)
    (hnex : ¬ ∃ s ∈ sources, s.feedUrl = source.feedUrl ∨ s.id = source.id) :
    addSource sources source = (true, sources ++ [source]) := by
  unfold addSource
  cases hf : sources.find? (fun s => decide (s.feedUrl = source.feedUrl ∨ s.id = source.id)) with
  | some s =>
    have hp := List.find?_some hf
    have hmem := List.mem_of_find?_eq_some hf
    simp only [decide_eq_true_eq] at hp
    exact absurd ⟨s, hmem, hp⟩ hnex
  | none => rfl

/-- C6: `addSource` returns failure — a boolean, the embedding is total —
exactly when some existing source shares the candidate's feed URL or id,
leaving the registry unchanged; otherwise it appends the candidate and
succeeds. -/
theorem addSource_spec (sources : List CalendarSource) (source : CalendarSource) :
    ((∃ s ∈ sources, s.feedUrl = source.feedUrl ∨ s.id = source.id) →
      addSource sources source = (false, sources)) ∧
    ((¬ ∃ s ∈ sources, s.feedUrl = source.feedUrl ∨ s.id = source.id) →
      addSource sources source = (true, sources ++ [source])) :=
  ⟨addSource_of_dup sources source, addSource_of_fresh sources source⟩

/-- A candidate sharing `sampleSource`'s feed URL but not its id. -/
def dupCandidate : CalendarSource := { sampleSource with id := "different-id" }

/-- A candidate with a fresh feed URL and id. -/
def freshCandidate : CalendarSource :=
  { sampleSource with id := "fresh-id", feedUrl := some "https://fresh.example/feed" }

/-- C6 witness: a duplicate-URL candidate is rejected with the registry
unchanged; a fresh candidate is appended. -/
theorem addSource_spec_witness :
    addSource [sampleSource] dupCandidate = (false, [sampleSource]) ∧
    addSource [sampleSource] freshCandidate = (true, [sampleSource, freshCandidate]) :=
  ⟨(addSource_spec [sampleSource] dupCandidate).1
     ⟨sampleSource, List.mem_singleton.mpr rfl, Or.inl rfl⟩,
   (addSource_spec [sampleSource] freshCandidate).2 (by decide)⟩

/-! ## Calendar-format parser (claim C7) -/

/-- The record emitted by `parseICalComponent` for a `VEVENT` with a start
and a (truthy) summary. -/
theorem parseICalComponent_eq (env : Env) (source : CalendarSource) (st : Int)
    (t : String) (en : Option Int) (de lo : Option String) (ht : t ≠ "") :
    parseICalComponent env source ⟨"VEVENT", some st, en, some t, de, lo⟩ =
      some { title := t,
             description := jsOrStr de "Event details available on website",
             category := categorizeEvent t (jsOrStr de ""),
             location := jsOrStr lo (source.city ++ ", " ++ source.state),
             organizer := source.name,
             startDate := some st,
             endDate := some (match en with | some e => e | none => st + 60 * 60 * 1000),
             startTime := env.fmtTime (some st),
             endTime := env.fmtTime
               (some (match en with | some e => e | none => st + 60 * 60 * 1000)),
             attendees := 0,
             imageUrl := none,
             isFree := if (match de with
               | some d => strContains (strToLower d) "free"
               | none => false) then "true" else "false",
             source := source.id } := by
  unfold parseICalComponent
  dsimp only
  rw [if_pos (show ("VEVENT" : String) = "VEVENT" ∧ t ≠ "" from ⟨rfl, ht⟩)]

/-- C7: the calendar-format parser skips every component lacking a start or
a (JS-truthy) title; a `VEVENT` with a title and a start but no end is
emitted with end = start + 1 hour (3 600 000 ms); and on a successful
fetch the feed's events are exactly the kept components, capped at 10. -/
theorem ical_parser_skip_and_default_end :
    (∀ env source c, c.start = none ∨ c.summary = none →
      parseICalComponent env source c = none) ∧
    (∀ env source c (s : Int) (t : String), c.ctype = "VEVENT" → c.start = some s →
      c.summary = some t → t ≠ "" → c.ends = none →
      ∃ ev, parseICalComponent env source c = some ev ∧
        ev.startDate = some s ∧ ev.endDate = some (s + 60 * 60 * 1000) ∧ ev.title = t) ∧
    (∀ env source feedUrl comps, source.feedUrl = some feedUrl → feedUrl ≠ "" →
      env.fetchICal feedUrl = some comps →
      parseICalFeed env source =
        .ok ((comps.filterMap (parseICalComponent env source)).take 10)) := by
  refine ⟨?_, ?_, ?_⟩
  · intro env source c hc
    obtain ⟨ct, st, en, su, de, lo⟩ := c
    rcases hc with h | h
    · simp only at h
      subst h
      cases su <;> rfl
    · simp only at h
      subst h
      cases st <;> rfl
  · intro env source c s t hct hst hsu ht he
    obtain ⟨ct, st, en, su, de, lo⟩ := c
    simp only at hct hst hsu he
    subst hct; subst hst; subst hsu; subst he
    rw [parseICalComponent_eq env source s t none de lo ht]
    exact ⟨_, rfl, rfl, rfl, rfl⟩
  · intro env source feedUrl comps hurl hne hfetch
    unfold parseICalFeed
    rw [hurl]
    dsimp only
    rw [if_neg hne, hfetch]

/-- A complete VEVENT component (title and start, no end). -/
def sampleICalComponent : ICalComponent :=
  { ctype := "VEVENT", start := some 5000, ends := none,
    summary := some "Town Hall", description := none, location := none }

/-- An environment whose iCal oracle returns the single sample component. -/
def envICal : Env := { envDown with fetchICal := fun _ => some [sampleICalComponent] }

/-- C7 witness: a start-less component is skipped; the sample component
yields one record ending one hour after its start; the feed-level parse
evaluates on a concrete fetch. -/
theorem ical_parser_skip_and_default_end_witness :
    parseICalComponent envDown sampleSource { sampleICalComponent with start := none } = none ∧
    (∃ ev, parseICalComponent envDown sampleSource sampleICalComponent = some ev ∧
      ev.startDate = some 5000 ∧ ev.endDate = some (5000 + 60 * 60 * 1000) ∧
      ev.title = "Town Hall") ∧
    parseICalFeed envICal sampleSource =
      .ok (([sampleICalComponent].filterMap (parseICalComponent envICal sampleSource)).take 10) :=
  ⟨ical_parser_skip_and_default_end.1 envDown sampleSource _ (Or.inl rfl),
   ical_parser_skip_and_default_end.2.1 envDown sampleSource sampleICalComponent 5000
     "Town Hall" rfl rfl rfl (by decide) rfl,
   ical_parser_skip_and_default_end.2.2 envICal sampleSource "https://sample.example/cal.ics"
     [sampleICalComponent] rfl (by decide) rfl⟩

/-! ## JSON parser free classification (claim C8) -/

/-- C8: a JSON feed entry with `price: 0` and no `is_free` field is
classified free (`isFree = "true"`), whatever its description says. -/
theorem json_price_zero_is_free (env : Env) (source : CalendarSource) (event : JSONEvent)
    (h1 : event.is_free = none) (h2 : event.price = some 0) :
    (parseJSONEvent env source event).isFree = "true" := by
  obtain ⟨sd, dt, ed, ti, na, de, su, lo, att, iu, isf, pr⟩ := event
  simp only at h1 h2
  subst h1; subst h2
  simp [parseJSONEvent]

/-- C8 witness: a concrete zero-priced entry with a description not
containing "free" still classifies as free. -/
theorem json_price_zero_is_free_witness :
    (parseJSONEvent envDown sampleSource
      { price := some 0, description := some "Tickets at the door." }).isFree = "true" :=
  json_price_zero_is_free envDown sampleSource _ rfl rfl

/-! ## Collection frame property (claim C9) -/

/-- A source with its collection-written state erased. -/
def clearLastSync (s : CalendarSource) : CalendarSource := { s with lastSync := none }

/-- C9: a full collection run neither adds nor removes registry sources,
and per source it writes nothing but the last-sync timestamp: erasing
`lastSync` on the updated registry gives back the original registry
(same length, same order, every other field untouched). -/
theorem collect_touches_only_lastSync (env : Env) (sources : List CalendarSource) :
    (collectFromAllSources env sources).2.length = sources.length ∧
    (collectFromAllSources env sources).2.map clearLastSync = sources.map clearLastSync := by
  constructor
  · simp [collectFromAllSources]
  · unfold collectFromAllSources
    dsimp only
    rw [List.map_map]
    apply List.map_congr_left
    intro s _
    simp only [Function.comp_apply]
    split_ifs <;> rfl

/-! ## Registry invariant: at most one source without a feed URL (claim C10) -/

/-- At most one registry source lacks a feed URL. -/
def atMostOneWithoutUrl (sources : List CalendarSource) : Prop :=
  sources.countP (fun s => decide (s.feedUrl = none)) ≤ 1

instance (sources : List CalendarSource) : Decidable (atMostOneWithoutUrl sources) :=
  inferInstanceAs (Decidable (_ ≤ _))

theorem atMostOneWithoutUrl_addSource (sources : List CalendarSource)
    (source : CalendarSource) (h : atMostOneWithoutUrl sources) :
    atMostOneWithoutUrl (addSource sources source).2 := by
  unfold addSource
  cases hf : sources.find? (fun s => decide (s.feedUrl = source.feedUrl ∨ s.id = source.id)) with
  | some s => exact h
  | none =>
    unfold atMostOneWithoutUrl at h ⊢
    dsimp only
    rw [List.countP_append]
    by_cases hnone : source.feedUrl = none
    · have hzero : sources.countP (fun s => decide (s.feedUrl = none)) = 0 := by
        rw [List.countP_eq_zero]
        intro s hs
        simp only [decide_eq_true_eq]
        intro hs_none
        have hnot := List.find?_eq_none.mp hf s hs
        simp only [decide_eq_true_eq] at hnot
        exact hnot (Or.inl (by rw [hs_none, hnone]))
      rw [hzero]
      simp [List.countP_cons, hnone]
    · have hone : List.countP (fun s => decide (s.feedUrl = none)) [source] = 0 := by
        simp [List.countP_cons, hnone]
      rw [hone]
      simpa using h

theorem removeSource_sublist (sources : List CalendarSource) (sourceId : String) :
    (removeSource sources sourceId).2.Sublist sources := by
  induction sources with
  | nil => exact List.Sublist.refl _
  | cons s rest ih =>
    unfold removeSource
    split_ifs with h
    · exact List.sublist_cons_self s rest
    · exact List.Sublist.cons₂ s ih

theorem atMostOneWithoutUrl_removeSource (sources : List CalendarSource)
    (sourceId : String) (h : atMostOneWithoutUrl sources) :
    atMostOneWithoutUrl (removeSource sources sourceId).2 :=
  le_trans (List.Sublist.countP_le _ (removeSource_sublist sources sourceId)) h

theorem countP_noUrl_toggleSource (sources : List CalendarSource) (sourceId : String) :
    (toggleSource sources sourceId).2.countP (fun s => decide (s.feedUrl = none)) =
      sources.countP (fun s => decide (s.feedUrl = none)) := by
  induction sources with
  | nil => rfl
  | cons s rest ih =>
    unfold toggleSource
    split_ifs with h
    · simp [List.countP_cons]
    · dsimp only
      rw [List.countP_cons, List.countP_cons, ih]

theorem atMostOneWithoutUrl_toggleSource (sources : List CalendarSource)
    (sourceId : String) (h : atMostOneWithoutUrl sources) :
    atMostOneWithoutUrl (toggleSource sources sourceId).2 := by
  unfold atMostOneWithoutUrl
  rw [countP_noUrl_toggleSource]
  exact h

theorem countP_noUrl_collect (env : Env) (sources : List CalendarSource) :
    (collectFromAllSources env sources).2.countP (fun s => decide (s.feedUrl = none)) =
      sources.countP (fun s => decide (s.feedUrl = none)) := by
  unfold collectFromAllSources
  dsimp only
  rw [List.countP_map]
  apply List.countP_congr
  intro s _
  simp only [Function.comp_apply]
  split_ifs <;> rfl

theorem atMostOneWithoutUrl_collect (env : Env) (sources : List CalendarSource)
    (h : atMostOneWithoutUrl sources) :
    atMostOneWithoutUrl (collectFromAllSources env sources).2 := by
  unfold atMostOneWithoutUrl
  rw [countP_noUrl_collect]
  exact h

/-- C10: `addSource` compares optional feed URLs with strict equality, so a
candidate with an absent feed URL is rejected whenever some existing
source's feed URL is also absent, even with a fresh id; consequently "at
most one source without a feed URL" holds of every registry reachable by
add/remove/toggle/collect from the seed registry (whose sources all have
feed URLs). -/
theorem registry_at_most_one_without_url :
    (∀ sources source, (∃ s ∈ sources, s.feedUrl = none) → source.feedUrl = none →
      addSource sources source = (false, sources)) ∧
    (∀ sources source, atMostOneWithoutUrl sources →
      atMostOneWithoutUrl (addSource sources source).2) ∧
    (∀ sources sourceId, atMostOneWithoutUrl sources →
      atMostOneWithoutUrl (removeSource sources sourceId).2) ∧
    (∀ sources sourceId, atMostOneWithoutUrl sources →
      atMostOneWithoutUrl (toggleSource sources sourceId).2) ∧
    (∀ env sources, atMostOneWithoutUrl sources →
      atMostOneWithoutUrl (collectFromAllSources env sources).2) ∧
    atMostOneWithoutUrl initialSources := by
  refine ⟨?_, atMostOneWithoutUrl_addSource, atMostOneWithoutUrl_removeSource,
    atMostOneWithoutUrl_toggleSource, atMostOneWithoutUrl_collect, by decide⟩
  intro sources source hex hnone
  apply addSource_of_dup
  obtain ⟨s, hs, hsnone⟩ := hex
  exact ⟨s, hs, Or.inl (by rw [hsnone, hnone])⟩

/-- A source with no feed URL. -/
def noUrlSourceA : CalendarSource :=
  { sampleSource with id := "no-url-a", feedUrl := none }

/-- A second source with no feed URL and a different id. -/
def noUrlSourceB : CalendarSource :=
  { sampleSource with id := "no-url-b", feedUrl := none }

/-- C10 witness: a URL-less candidate with a fresh id is rejected by a
registry already holding a URL-less source, and the invariant holds of
the seed registry and is kept by a concrete add. -/
theorem registry_at_most_one_without_url_witness :
    addSource [noUrlSourceA] noUrlSourceB = (false, [noUrlSourceA]) ∧
    atMostOneWithoutUrl (addSource initialSources noUrlSourceB).2 :=
  ⟨registry_at_most_one_without_url.1 [noUrlSourceA] noUrlSourceB
     ⟨noUrlSourceA, List.mem_singleton.mpr rfl, rfl⟩ rfl,
   registry_at_most_one_without_url.2.1 initialSources noUrlSourceB (by decide)⟩
